import Mathlib

/-!
Verification of the byro-fints session-lifecycle layer.

This file gives a shallow embedding of the dialog/session lifecycle code of
the byro-fints repository and proves or refutes the specification claims
about it.  The embedded functions follow, line by line, the Python source in

  * `src/byro_fints/fints_interface.py`   (registry, pause/resume, helper)
  * `src/byro_fints/views/login_add.py`   (enrollment wrapper and workflow)
  * `src/byro_fints/views/common.py`      (flicker rendering)

The external FinTS protocol library (`fints.client.FinTS3PinTanClient`) is
not part of the repository; where its behaviour matters it is modelled from
the contract the spec fixes for it (§4.2/§6: open/pause/resume/close, with a
continuation blob usable exactly once).  Those places are marked
`Modelled from the spec:` in their doc comments.
-/

namespace ByroFints

/-- The PIN storage preference enum `PinState`
(fints_interface.py lines 145-150, duplicated in views/login_add.py lines 45-50). -/
inductive PinState where
  | NONE
  | DONTSAVE
  | SAVE_ON_RESUME
  | SAVE_TEMPORARY
  | SAVE_PERSISTENT
  deriving DecidableEq, Repr

/-- The sentinel form value meaning "use the cached PIN"
(`PIN_CACHED_SENTINEL`, fints_interface.py line 27). -/
def PIN_CACHED_SENTINEL : String := "******"

/-- Errors that can surface from the embedded lifecycle code.
`assertionError` models a failing Python `assert` (e.g. calling
`open_client` outside a `@with_fints` function, fints_interface.py line 72).
`staleDialog` models the bank rejecting an already-consumed dialog
continuation blob (the spec taxonomy name is `StaleDialogError`). -/
inductive FintsError where
  | assertionError
  | staleDialog
  | keyError
  deriving DecidableEq, Repr

/-- A FinTS protocol client handle as produced by `_inner_open_client`
(fints_interface.py lines 71-83).  `cid` is the in-memory object identity;
the remaining fields are the constructor arguments, including the TAN
mechanism/medium applied via `set_tan_mechanism` / `set_tan_medium` before
the dialog is entered. -/
structure Client where
  cid : Nat
  blz : String
  login_name : String
  pin : String
  fints_url : String
  tan_mechanism : Option String
  tan_medium : Option String
  deriving DecidableEq, Repr

/-- Observable dialog events, used to state ordering properties
("a close observable before the new open"). -/
inductive DlgEv where
  | openedD (cid : Nat) (tan_mechanism : Option String) (tan_medium : Option String)
  | closedD (cid : Nat)
  | pausedD (cid : Nat)
  | resumedD (cid : Nat) (tan_mechanism : Option String)
  deriving DecidableEq, Repr

/-- The ambient state of `fints_interface.py`: the context variables
`open_clients`, `resumed_dialogs` and `with_fints_active` (lines 30-33),
made explicit.  `open_clients` is a set of clients; we model it as a
duplicate-free list in insertion order.  `resumed_dialogs` keeps the ids of
clients opened via `resume_client` (the domain of the ContextManager map). -/
structure Registry where
  open_clients : List Client
  resumed_dialogs : List Nat
  with_fints_active : Nat
  deriving DecidableEq, Repr

/-- What the bank offers in the current dialog, as reported by the protocol
library: the TAN mechanism ids (`client.get_tan_mechanisms()` keys), the
TAN medium names (`client.get_tan_media()`), whether naming a TAN medium is
required (`client.is_tan_media_required()`), and whether completing dialog
initialization itself demands a TAN (`client.init_tan_response`). -/
structure Bank where
  mechanisms : List String
  media : List String
  media_required : Bool
  init_tan : Bool
  deriving DecidableEq, Repr

/-- The full world a lifecycle operation acts on: the registry, the bank
configuration, plus the bank-side dialog state and fresh-id supplies.

Modelled from the spec: the fields `valid_blobs`/`next_blob` embody the
external protocol library contract of §4.2 and the glossary ("Continuation
blob: serialized state captured at a pause, usable exactly once to resume
the same in-flight dialog"): `pause_dialog` issues a blob, `resume_dialog`
consumes it, and a consumed blob is rejected.  `trace` records the
observable dialog events in order. -/
structure World where
  reg : Registry
  bank : Bank
  valid_blobs : List Nat
  next_blob : Nat
  next_cid : Nat
  trace : List DlgEv
  deriving DecidableEq, Repr

/-- `_inner_open_client` (fints_interface.py lines 71-83): asserts that we
are inside a `@with_fints` function, constructs the client and applies the
TAN mechanism/medium keyword arguments. -/
def inner_open_client (w : World) (blz login_name pin fints_url : String)
    (tan_mechanism tan_medium : Option String) : Except FintsError (Client × World) :=
  if w.reg.with_fints_active = 0 then
    .error .assertionError
  else
    let c : Client := ⟨w.next_cid, blz, login_name, pin, fints_url, tan_mechanism, tan_medium⟩
    .ok (c, { w with next_cid := w.next_cid + 1 })

/-- `open_client` (fints_interface.py lines 86-96): creates the client,
enters its dialog and records it in the `open_clients` set.  There is no
per-login lock, no busy check and no error path other than the
`@with_fints` assertion: a second open for the same login succeeds. -/
def open_client (w : World) (blz login_name pin fints_url : String)
    (tan_mechanism tan_medium : Option String) : Except FintsError (Client × World) :=
  match inner_open_client w blz login_name pin fints_url tan_mechanism tan_medium with
  | .error e => .error e
  | .ok (c, w') =>
      .ok (c, { w' with
        reg := { w'.reg with open_clients := w'.reg.open_clients ++ [c] },
        trace := w'.trace ++ [.openedD c.cid tan_mechanism tan_medium] })

/-- `close_client` (fints_interface.py lines 127-142): asserts the client is
registered open, deconstructs it to `client_data`, removes it from the open
set and exits either its resume scope or the client itself.  The snapshot
bytes are abstracted as the client id. -/
def close_client (w : World) (c : Client) (_including_private : Bool) :
    Except FintsError (Nat × World) :=
  if c ∈ w.reg.open_clients then
    .ok (c.cid, { w with
      reg := { w.reg with
        open_clients := w.reg.open_clients.erase c,
        resumed_dialogs := w.reg.resumed_dialogs.erase c.cid },
      trace := w.trace ++ [.closedD c.cid] })
  else
    .error .assertionError

/-- `pause_client` (fints_interface.py lines 99-109): asserts the client is
open, pauses the dialog (the bank issues a fresh continuation blob) and then
closes the client with `including_private=True`.  Returns
`(client_data, dialog_data)`. -/
def pause_client (w : World) (c : Client) : Except FintsError ((Nat × Nat) × World) :=
  if c ∈ w.reg.open_clients then
    let blob := w.next_blob
    let w₁ : World := { w with
      valid_blobs := w.valid_blobs ++ [blob],
      next_blob := w.next_blob + 1,
      trace := w.trace ++ [.pausedD c.cid] }
    match close_client w₁ c true with
    | .error e => .error e
    | .ok (client_data, w₂) => .ok ((client_data, blob), w₂)
  else
    .error .assertionError

/-- `resume_client` (fints_interface.py lines 112-124): reconstructs a
client from the constructor arguments plus `client_data`, then resumes the
dialog from `dialog_data` and registers the client in both `open_clients`
and `resumed_dialogs`.

Modelled from the spec: the bank side accepts a continuation blob exactly
once (§4.2: resume "fails with `StaleDialogError` if the bank rejects the
continuation"); a blob not (or no longer) in `valid_blobs` is rejected. -/
def resume_client (w : World) (blz login_name pin fints_url : String)
    (tan_mechanism tan_medium : Option String)
    (_client_data : Nat) (dialog_data : Nat) : Except FintsError (Client × World) :=
  match inner_open_client w blz login_name pin fints_url tan_mechanism tan_medium with
  | .error e => .error e
  | .ok (c, w') =>
      if dialog_data ∈ w'.valid_blobs then
        .ok (c, { w' with
          valid_blobs := w'.valid_blobs.erase dialog_data,
          reg := { w'.reg with
            open_clients := w'.reg.open_clients ++ [c],
            resumed_dialogs := w'.reg.resumed_dialogs ++ [c.cid] },
          trace := w'.trace ++ [.resumedD c.cid tan_mechanism] })
      else
        .error .staleDialog

/-- A world at the start of a guarded unit of work: inside one
`@with_fints` call, nothing open, no blobs issued. -/
def w0 : World :=
  { reg := { open_clients := [], resumed_dialogs := [], with_fints_active := 1 },
    bank := { mechanisms := ["942"], media := [], media_required := false, init_tan := false },
    valid_blobs := [], next_blob := 0, next_cid := 0, trace := [] }

/-! ## The helper layer

`AbstractFinTSHelper` (fints_interface.py lines 153-453) and its
near-identical earlier copy `AbstractFinTSWrapper`
(views/login_add.py lines 53-283) keep, per workflow, the client handle and
the saved state driving `open`/`reopen`/`close` and the pause performed by
`save_in_session`.  The structure below carries the fields those methods
read and write; `pin` is the effective PIN (the value of the `pin`
property), `client_data` is the snapshot last stored by
`_do_save_client_data` (the `from_data` property reads it back). -/

/-- Helper/wrapper state, as used by `open`, `reopen`, `close` and the
pause step of `save_in_session`. -/
structure Helper where
  blz : String
  login_name : String
  fints_url : String
  pin : String
  dialog_data : Option Nat
  tan_mechanism : Option String
  tan_medium : Option String
  tan_mechanisms : Option (List String)
  tan_media : Option (List String)
  tan_request_serialized : Option Nat
  client : Option Client
  client_data : Option Nat
  deriving DecidableEq, Repr

/-- `AbstractFinTSHelper.open` (fints_interface.py lines 316-341; the same
logic is views/login_add.py lines 189-213): if no client is held, either
resume from `dialog_data` (clearing it — a helper never reuses its own
continuation blob) or open a fresh client; a fresh open that immediately
demands a TAN to finish dialog initialization records the serialized
request (the blob content is abstracted as `0`). -/
def Helper.openH (h : Helper) (w : World) :
    Except FintsError (Helper × World) :=
  match h.client with
  | some _ => .ok (h, w)
  | none =>
    match h.dialog_data with
    | some dd =>
        match resume_client w h.blz h.login_name h.pin h.fints_url
            h.tan_mechanism h.tan_medium (h.client_data.getD 0) dd with
        | .error e => .error e
        | .ok (c, w') => .ok ({ h with client := some c, dialog_data := none }, w')
    | none =>
        match open_client w h.blz h.login_name h.pin h.fints_url
            h.tan_mechanism h.tan_medium with
        | .error e => .error e
        | .ok (c, w') =>
            let h' := { h with client := some c }
            let h' := if w'.bank.init_tan then { h' with tan_request_serialized := some 0 } else h'
            .ok (h', w')

/-- `AbstractFinTSHelper.close` (fints_interface.py lines 377-381;
views/login_add.py lines 233-237): close the client with
`including_private=True`, save the snapshot, drop the handle. -/
def Helper.closeH (h : Helper) (w : World) : Except FintsError (Helper × World) :=
  match h.client with
  | none => .ok (h, w)
  | some c =>
      match close_client w c true with
      | .error e => .error e
      | .ok (cd, w') => .ok ({ h with client := none, client_data := some cd }, w')

/-- The pause step of `save_in_session` (fints_interface.py lines 252-256;
views/login_add.py lines 141-144): if a client is held, pause it, keep the
returned `dialog_data`, save the snapshot, drop the handle. -/
def Helper.pauseH (h : Helper) (w : World) : Except FintsError (Helper × World) :=
  match h.client with
  | none => .ok (h, w)
  | some c =>
      match pause_client w c with
      | .error e => .error e
      | .ok ((cd, dd), w') =>
          .ok ({ h with client := none, dialog_data := some dd, client_data := some cd }, w')

/-- `AbstractFinTSHelper.reopen` (fints_interface.py lines 371-375;
views/login_add.py lines 227-231): close, set the supplied attributes, open
again.  The `**kwargs` attribute update is passed as a function. -/
def Helper.reopen (h : Helper) (w : World) (upd : Helper → Helper) :
    Except FintsError (Helper × World) :=
  match h.closeH w with
  | .error e => .error e
  | .ok (h₁, w₁) => (upd h₁).openH w₁

/-- Two consecutive `open_client` calls for the same UserLogin identity
within one guarded unit of work, exactly as two concurrent requests for the
same login would each perform. -/
def openTwiceSameLogin : Except FintsError (Client × World) :=
  match open_client w0 "10010010" "user1" "1234" "https://bank.example/fints" none none with
  | .error e => .error e
  | .ok (_, w₁) => open_client w₁ "10010010" "user1" "1234" "https://bank.example/fints" none none

/-- The number of live open clients for login `user1` after the two opens,
`none` if either open failed. -/
def openTwiceLiveCount : Option Nat :=
  openTwiceSameLogin.toOption.map
    (fun p => p.2.reg.open_clients.countP (fun c => c.login_name = "user1"))

/-- C1: a second `open_client` for a UserLogin whose dialog is already open
does not block and does not fail: it silently opens a second dialog, so the
open-client set then holds two live clients for the same login.  No
`LoginBusyError` (or any lock) exists anywhere in the code; this evaluates
the embedded code at the failing input. -/
theorem second_open_for_same_login_silently_succeeds :
    openTwiceLiveCount = some 2 := by rfl

/-- C3: pausing an open dialog via the helper and then calling `open` again
resumes it: the result is an open client (registered live) with the same
identity (`blz`, `login_name`) and the same negotiated TAN mechanism as the
paused one; and the continuation blob produced by the pause is single-use —
a second `resume_client` with the same blob fails with the stale-dialog
error.  Hypotheses: the helper holds the client, the client is live inside
a guarded scope, its identity/mechanism agree with the helper fields it was
opened from, and the bank-issued blob id is fresh. -/
theorem pause_then_open_resumes_same_dialog_and_blob_is_single_use
    (h : Helper) (w : World) (c : Client)
    (hc : h.client = some c)
    (hmem : c ∈ w.reg.open_clients)
    (hact : w.reg.with_fints_active ≠ 0)
    (hblz : c.blz = h.blz) (hlogin : c.login_name = h.login_name)
    (hmech : c.tan_mechanism = h.tan_mechanism)
    (hfresh : w.next_blob ∉ w.valid_blobs) :
    ∃ h₁ w₁ h₂ w₂ c',
      h.pauseH w = .ok (h₁, w₁) ∧
      h₁.dialog_data = some w.next_blob ∧
      h₁.openH w₁ = .ok (h₂, w₂) ∧
      h₂.client = some c' ∧
      c' ∈ w₂.reg.open_clients ∧
      c'.blz = c.blz ∧ c'.login_name = c.login_name ∧
      c'.tan_mechanism = c.tan_mechanism ∧
      h₂.dialog_data = none ∧
      resume_client w₂ h.blz h.login_name h.pin h.fints_url h.tan_mechanism h.tan_medium
        (h₁.client_data.getD 0) w.next_blob = .error .staleDialog := by
  have hpause : pause_client w c = .ok ((c.cid, w.next_blob),
      { w with
        valid_blobs := w.valid_blobs ++ [w.next_blob],
        next_blob := w.next_blob + 1,
        reg := { w.reg with
          open_clients := w.reg.open_clients.erase c,
          resumed_dialogs := w.reg.resumed_dialogs.erase c.cid },
        trace := (w.trace ++ [.pausedD c.cid]) ++ [.closedD c.cid] }) := by
    simp [pause_client, close_client, hmem]
  have herase : (w.valid_blobs ++ [w.next_blob]).erase w.next_blob = w.valid_blobs := by
    rw [List.erase_append_right _ hfresh]
    simp
  set b := w.next_blob with hb
  set h₁ : Helper :=
    { h with client := none, dialog_data := some b, client_data := some c.cid } with hh₁
  set w₁ : World :=
    { w with
      valid_blobs := w.valid_blobs ++ [b],
      next_blob := b + 1,
      reg := { w.reg with
        open_clients := w.reg.open_clients.erase c,
        resumed_dialogs := w.reg.resumed_dialogs.erase c.cid },
      trace := w.trace ++ [.pausedD c.cid] ++ [.closedD c.cid] } with hw₁
  set c' : Client :=
    ⟨w.next_cid, h.blz, h.login_name, h.pin, h.fints_url, h.tan_mechanism, h.tan_medium⟩
    with hc'
  set h₂ : Helper := { h₁ with client := some c', dialog_data := none } with hh₂
  set w₂ : World :=
    { w₁ with
      next_cid := w.next_cid + 1,
      valid_blobs := (w.valid_blobs ++ [b]).erase b,
      reg := { w₁.reg with
        open_clients := w₁.reg.open_clients ++ [c'],
        resumed_dialogs := w₁.reg.resumed_dialogs ++ [c'.cid] },
      trace := w₁.trace ++ [.resumedD c'.cid h.tan_mechanism] } with hw₂
  have hactw : ¬ w.reg.with_fints_active = 0 := hact
  refine ⟨h₁, w₁, h₂, w₂, c', ?_, rfl, ?_, rfl, ?_, ?_, ?_, ?_, rfl, ?_⟩
  · simp only [Helper.pauseH, hc, hpause]
  · have hbmem : b ∈ w.valid_blobs ++ [b] := by simp
    simp only [Helper.openH, resume_client, inner_open_client, hw₁]
    rw [if_neg hactw]
    simp only [hbmem, if_true]
  · simp [hw₂]
  · simp [hc', hblz]
  · simp [hc', hlogin]
  · simp [hc', hmech]
  · have hnm : b ∉ (w.valid_blobs ++ [b]).erase b := by
      rw [herase]; exact hfresh
    simp only [resume_client, inner_open_client, hw₂]
    simp [hnm, hactw]

/-- Concrete inputs for the C3 witness: a helper holding one live client
for login `user1`, TAN mechanism `942`, inside a guarded scope. -/
def c3Client : Client :=
  { cid := 0, blz := "10010010", login_name := "user1", pin := "1234",
    fints_url := "https://bank.example/fints", tan_mechanism := some "942",
    tan_medium := none }

/-- The helper state to which `c3Client` belongs. -/
def c3Helper : Helper :=
  { blz := "10010010", login_name := "user1",
    fints_url := "https://bank.example/fints", pin := "1234",
    dialog_data := none, tan_mechanism := some "942", tan_medium := none,
    tan_mechanisms := some ["942"], tan_media := none,
    tan_request_serialized := none, client := some c3Client, client_data := none }

/-- The world in which `c3Client` is live inside a guarded scope. -/
def c3World : World :=
  { reg := { open_clients := [c3Client], resumed_dialogs := [], with_fints_active := 1 },
    bank := { mechanisms := ["942"], media := [], media_required := false, init_tan := false },
    valid_blobs := [], next_blob := 0, next_cid := 1, trace := [] }

/-- Witness for the C3 theorem at the concrete inputs above. -/
theorem pause_then_open_resumes_same_dialog_witness :
    ∃ h₁ w₁ h₂ w₂ c',
      c3Helper.pauseH c3World = .ok (h₁, w₁) ∧
      h₁.dialog_data = some c3World.next_blob ∧
      h₁.openH w₁ = .ok (h₂, w₂) ∧
      h₂.client = some c' ∧
      c' ∈ w₂.reg.open_clients ∧
      c'.blz = c3Client.blz ∧ c'.login_name = c3Client.login_name ∧
      c'.tan_mechanism = c3Client.tan_mechanism ∧
      h₂.dialog_data = none ∧
      resume_client w₂ c3Helper.blz c3Helper.login_name c3Helper.pin c3Helper.fints_url
        c3Helper.tan_mechanism c3Helper.tan_medium
        (h₁.client_data.getD 0) c3World.next_blob = .error .staleDialog :=
  pause_then_open_resumes_same_dialog_and_blob_is_single_use c3Helper c3World c3Client
    rfl (by simp [c3World]) (by simp [c3World]) rfl rfl rfl (by simp [c3World])

/-! ## Scope-exit cleanup (`_ensure_close_clients`, fints_interface.py lines 59-68)

For the cleanup claims the relevant behaviour of a leaked client is only
whether its `__exit__` call raises, so clients are abstracted to an id plus
that flag. -/

/-- A leaked client as seen by `_ensure_close_clients`: its identity and
whether its `__exit__` (or its resume scope's `__exit__`) raises. -/
structure LeakClient where
  cid : Nat
  close_raises : Bool
  deriving DecidableEq, Repr

/-- The observable outcome of `_ensure_close_clients`: which clients had
their `__exit__` run to completion, the contents of the `open_clients`
context variable afterwards, and whether an exception escaped. -/
structure CleanupResult where
  closed : List Nat
  open_after : List LeakClient
  raised : Bool
  deriving DecidableEq, Repr

/-- The `for client in open_clients.get()` loop body of
`_ensure_close_clients` (lines 61-66): each `__exit__` is called bare, with
no `try`/`except`, so the first raising close propagates and ends the loop.
Returns the ids successfully exited and whether an exception escaped. -/
def closeLoop : List LeakClient → List Nat × Bool
  | [] => ([], false)
  | c :: rest =>
      if c.close_raises then ([], true)
      else
        let (ids, r) := closeLoop rest
        (c.cid :: ids, r)

/-- `_ensure_close_clients` (fints_interface.py lines 59-68): run the close
loop over the live set; only if the loop completes are `open_clients` and
`resumed_dialogs` reset to empty (lines 67-68 execute after the loop, so a
propagating exception skips them and the live set keeps all its entries). -/
def ensure_close_clients (cs : List LeakClient) : CleanupResult :=
  let (ids, r) := closeLoop cs
  { closed := ids, open_after := if r then cs else [], raised := r }

/-- C2 counterexample: a guarded unit of work leaks two clients (k = 2,
j = 0) and the first force-close raises.  Cleanup does not proceed to the
second client and the live set is not emptied: the claim is false at this
input. -/
theorem cleanup_aborts_on_raising_close :
    ensure_close_clients [⟨0, true⟩, ⟨1, false⟩] =
      { closed := [], open_after := [⟨0, true⟩, ⟨1, false⟩], raised := true } ∧
    (ensure_close_clients [⟨0, true⟩, ⟨1, false⟩]).open_after ≠ [] ∧
    1 ∉ (ensure_close_clients [⟨0, true⟩, ⟨1, false⟩]).closed := by
  refine ⟨rfl, by decide, by decide⟩

/-- C2 as amended: scope exit force-closes every leaked client in iteration
order and leaves the live set empty, provided no individual force-close
raises; if some force-close raises, the exception propagates out of
`_ensure_close_clients`, the clients after the raising one are not closed,
and the live-client set is not cleared. -/
theorem cleanup_closes_all_leaked_clients_when_no_close_raises :
    (∀ cs : List LeakClient, (∀ c ∈ cs, c.close_raises = false) →
      ensure_close_clients cs = { closed := cs.map (·.cid), open_after := [], raised := false }) ∧
    (∀ cs : List LeakClient, (∃ c ∈ cs, c.close_raises = true) →
      (ensure_close_clients cs).raised = true ∧
      (ensure_close_clients cs).open_after = cs) := by
  have hloop : ∀ cs : List LeakClient, (∀ c ∈ cs, c.close_raises = false) →
      closeLoop cs = (cs.map (·.cid), false) := by
    intro cs h
    induction cs with
    | nil => rfl
    | cons c rest ih =>
        have hc : c.close_raises = false := h c (by simp)
        have hrest := ih (fun x hx => h x (by simp [hx]))
        simp [closeLoop, hc, hrest]
  have hraise : ∀ cs : List LeakClient, (∃ c ∈ cs, c.close_raises = true) →
      (closeLoop cs).2 = true := by
    intro cs h
    induction cs with
    | nil => simp at h
    | cons c rest ih =>
        rcases h with ⟨x, hx, hxr⟩
        rcases List.mem_cons.mp hx with rfl | hmem
        · simp [closeLoop, hxr]
        · by_cases hc : c.close_raises
          · simp [closeLoop, hc]
          · have := ih ⟨x, hmem, hxr⟩
            simp [closeLoop, hc, this]
  constructor
  · intro cs h
    simp [ensure_close_clients, hloop cs h]
  · intro cs h
    have h2 := hraise cs h
    simp [ensure_close_clients, h2]

/-- Witness for the amended C2 theorem: both branches at concrete inputs. -/
theorem cleanup_closes_all_leaked_clients_when_no_close_raises_witness :
    ensure_close_clients [⟨7, false⟩, ⟨8, false⟩] =
      { closed := [7, 8], open_after := [], raised := false } ∧
    (ensure_close_clients [⟨7, false⟩, ⟨9, true⟩]).open_after = [⟨7, false⟩, ⟨9, true⟩] := by
  refine ⟨?_, ?_⟩
  · have := cleanup_closes_all_leaked_clients_when_no_close_raises.1
      [⟨7, false⟩, ⟨8, false⟩] (by decide)
    simpa using this
  · exact (cleanup_closes_all_leaked_clients_when_no_close_raises.2
      [⟨7, false⟩, ⟨9, true⟩] ⟨⟨9, true⟩, by decide, rfl⟩).2

/-! ## Nesting of guarded scopes (`with_fints`, fints_interface.py lines 44-56)

`with_fints` wraps a function: it increments `with_fints_active`, runs the
body, and in its `finally` block first calls `_ensure_close_clients()` and
only then decrements the counter.  The cleanup call is therefore executed at
*every* exit of a `@with_fints` function, not only the outermost one.  The
model below runs a small action language under those semantics and records
the value of `with_fints_active` at the moment each force-close happens. -/

/-- Actions performed by code inside guarded functions: open a client, close
a client, sequence, do nothing, or call a nested `@with_fints` function. -/
inductive Act where
  | openC (cid : Nat)
  | closeC (cid : Nat)
  | seq (a b : Act)
  | skip
  | guarded (body : Act)
  deriving DecidableEq, Repr

/-- The context-variable state seen by `with_fints`: the ids of currently
open clients and the `with_fints_active` counter. -/
structure GState where
  open_cl : List Nat
  depth : Nat
  deriving DecidableEq, Repr

/-- Events observable while running actions.  `forceClosed cid d` records
that `_ensure_close_clients` closed a leaked client while
`with_fints_active` was `d` (so `d = 1` means the outermost exit and
`d > 1` means an inner nested exit with an outer scope still active). -/
inductive GEv where
  | opened (cid : Nat)
  | closed (cid : Nat)
  | forceClosed (cid : Nat) (depthAtExit : Nat)
  deriving DecidableEq, Repr

/-- Run one action.  `guarded body` follows `with_fints` (lines 44-56):
increment the counter, run the body, then unconditionally run
`_ensure_close_clients` (force-closing everything still open and emptying
the set) and only afterwards decrement the counter.  Entering touches only
the counter: the open-client state is shared with the enclosing scope. -/
def runAct : Act → GState → GState × List GEv
  | .openC cid, s => ({ s with open_cl := s.open_cl ++ [cid] }, [.opened cid])
  | .closeC cid, s => ({ s with open_cl := s.open_cl.erase cid }, [.closed cid])
  | .seq a b, s =>
      let (s₁, evs₁) := runAct a s
      let (s₂, evs₂) := runAct b s₁
      (s₂, evs₁ ++ evs₂)
  | .skip, s => (s, [])
  | .guarded body, s =>
      let (s₁, evs) := runAct body { s with depth := s.depth + 1 }
      (⟨[], s₁.depth - 1⟩, evs ++ s₁.open_cl.map (fun cid => GEv.forceClosed cid s₁.depth))

/-- C4 counterexample: an outer guarded function opens client 1 and then
calls an inner guarded function which does nothing.  At the *inner* exit
(`with_fints_active = 2`, outer scope still active) client 1 is already
force-closed — the leak force-close is not reserved to the outermost exit. -/
theorem inner_scope_exit_force_closes_clients :
    (runAct (.guarded (.seq (.openC 1) (.guarded .skip))) ⟨[], 0⟩).2 =
      [.opened 1, .forceClosed 1 2] ∧
    GEv.forceClosed 1 2 ∈ (runAct (.guarded (.seq (.openC 1) (.guarded .skip))) ⟨[], 0⟩).2 ∧
    (2 : Nat) ≠ 1 := by
  refine ⟨rfl, by decide, by decide⟩

/-- C4 as amended: entering a nested guarded scope only increments the
counter and leaves the live-client state untouched (the counter is restored
on exit), but the leak force-close runs at *every* guarded exit: after any
`guarded` action the live set is empty, and in the nested run above the
client opened by the outer scope is force-closed at the inner exit, while
the counter is still 2. -/
theorem guarded_exit_always_clears_live_set :
    (∀ a : Act, ∀ s : GState, (runAct a s).1.depth = s.depth) ∧
    (∀ body : Act, ∀ s : GState, (runAct (.guarded body) s).1.open_cl = []) ∧
    (runAct (.guarded (.seq (.openC 1) (.guarded (.openC 2)))) ⟨[], 0⟩).2 =
      [.opened 1, .opened 2, .forceClosed 1 2, .forceClosed 2 2] := by
  have hdepth : ∀ a : Act, ∀ s : GState, (runAct a s).1.depth = s.depth := by
    intro a
    induction a with
    | openC cid => intro s; rfl
    | closeC cid => intro s; rfl
    | seq a b iha ihb => intro s; simp [runAct, iha, ihb]
    | skip => intro s; rfl
    | guarded body ih =>
        intro s
        simp [runAct, ih]
  refine ⟨hdepth, fun body s => by simp [runAct], rfl⟩

/-! ## PIN storage (django-securebox tiers) and the PIN claims

The `request.securebox` collaborator stores string values at one of two
retention tiers (`Storage.TRANSIENT_ONLY`, session lifetime;
`Storage.PERMANENT_ONLY`, persistent encrypted).  It is modelled as an
association list; `store_value` prepends, `fetch_value` finds the most
recent entry for a key. -/

/-- The securebox retention tiers (`django_securebox.utils.Storage`). -/
inductive Tier where
  | TRANSIENT_ONLY
  | PERMANENT_ONLY
  deriving DecidableEq, Repr

/-- The securebox contents: (key, value, tier) entries, most recent first. -/
abbrev SecureBox := List (String × String × Tier)

/-- `securebox.store_value(key, value, storage=tier)`. -/
def SecureBox.store_value (box : SecureBox) (key val : String) (t : Tier) : SecureBox :=
  (key, val, t) :: box

/-- `securebox.fetch_value(key)` over all tiers. -/
def SecureBox.fetch_value (box : SecureBox) (key : String) : Option String :=
  (box.find? (fun e => e.1 = key)).map (fun e => e.2.1)

/-- `securebox.fetch_value(key, storage=tier)` restricted to one tier. -/
def SecureBox.fetch_tier (box : SecureBox) (key : String) (t : Tier) : Option String :=
  (box.find? (fun e => e.1 = key ∧ e.2.2 = t)).map (fun e => e.2.1)

/-- The per-login PIN cache key,
`"byro_fints__pin__{}__cache".format(user_login.login.pk)`
(fints_interface.py line 513, views/login_add.py line 299). -/
def pin_cache_label (login_pk : Nat) : String :=
  "byro_fints__pin__" ++ toString login_pk ++ "__cache"

/-- The session resume label `"byro_fints:resume:%s" % self.resume_id`
(fints_interface.py lines 236-237, views/login_add.py lines 125-126). -/
def resume_label (resume_id : String) : String :=
  "byro_fints:resume:" ++ resume_id

/-- Outcome of a form-handling view, as far as the claims observe it. -/
inductive FormOutcome where
  | invalidPinError
  | redirect (step : Nat) (resume_id : String)
  deriving DecidableEq, Repr

/-- The `except FinTSClientPINError` handler of
`FinTSLoginCreateStep1View.form_valid` (views/login_add.py lines 512-514):
it adds a form error and returns `form_invalid`.  It performs no securebox
operation at all — the purge of the cached PIN that
`AbstractFinTSHelper.open` was meant to do on `FinTSClientPINError` is
commented out with a FIXME (fints_interface.py lines 342-351), so the
securebox is returned unchanged. -/
def step1_on_pin_error (box : SecureBox) : SecureBox × FormOutcome :=
  (box, .invalidPinError)

/-- A securebox holding the cached PIN `1234` for login 1 in both the
transient and the persistent tier. -/
def c5Box : SecureBox :=
  [(pin_cache_label 1, "1234", Tier.TRANSIENT_ONLY),
   (pin_cache_label 1, "1234", Tier.PERMANENT_ONLY)]

/-- C5: when the bank reports an authentication failure
(`FinTSClientPINError`), the code re-prompts but does not purge the cached
PIN from any tier: the handler leaves the securebox unchanged and the
stale PIN is still readable from both tiers afterwards.  (The purge the
claim describes exists only as commented-out FIXME code,
fints_interface.py lines 342-351.) -/
theorem auth_failure_leaves_cached_pin_in_every_tier :
    (step1_on_pin_error c5Box).1 = c5Box ∧
    (step1_on_pin_error c5Box).1.fetch_tier (pin_cache_label 1) Tier.TRANSIENT_ONLY
      = some "1234" ∧
    (step1_on_pin_error c5Box).1.fetch_tier (pin_cache_label 1) Tier.PERMANENT_ONLY
      = some "1234" ∧
    (step1_on_pin_error c5Box).2 = .invalidPinError := by
  refine ⟨rfl, rfl, rfl, rfl⟩

/-! ## The enrollment wrapper's PIN handling (views/login_add.py) -/

/-- The PIN-relevant state of `AbstractFinTSWrapper`:
the `SAVE_PIN_IN_RESUME` class attribute (`True` for
`FinTSWrapperAddProcess`, line 332), `resume_id`, `self._pin` and
`self.pin_state`. -/
structure WrapperPin where
  save_pin_in_resume : Bool
  resume_id : String
  pin_internal : Option String
  pin_state : PinState
  deriving DecidableEq, Repr

/-- `AbstractFinTSWrapper.load_from_form` (views/login_add.py lines
108-122): if the form has a `pin` field, read `store_pin` (default
DONTSAVE); with `SAVE_PIN_IN_RESUME` and DONTSAVE the submitted pin value
is kept in `self._pin` and the state becomes SAVE_ON_RESUME.  Unlike
`AbstractFinTSHelper.load_from_form` (fints_interface.py line 232), there
is no comparison against `PIN_CACHED_SENTINEL` — the source marks this
`# FIXME Compare with SENTINEL` (line 115). -/
def wrapper_load_from_form (wp : WrapperPin) (formPin : Option String)
    (formStorePin : Option PinState) : WrapperPin :=
  match formPin with
  | none => wp
  | some pin =>
      let store_pin := formStorePin.getD PinState.DONTSAVE
      if wp.save_pin_in_resume = true ∧ store_pin = PinState.DONTSAVE then
        { wp with pin_internal := some pin, pin_state := PinState.SAVE_ON_RESUME }
      else
        { wp with pin_state := store_pin }

/-- The PIN part of `AbstractFinTSWrapper.save_in_session`
(views/login_add.py lines 151-155): with state SAVE_ON_RESUME, `self._pin`
is written verbatim to the transient securebox tier under
`resume_label + "/pin"`. -/
def wrapper_save_pin_in_session (wp : WrapperPin) (box : SecureBox) : SecureBox :=
  if wp.pin_state = PinState.SAVE_ON_RESUME then
    box.store_value (resume_label wp.resume_id ++ "/pin")
      (wp.pin_internal.getD "") Tier.TRANSIENT_ONLY
  else box

/-- The wrapper state after the failing form submission: the enrollment
wrapper (`SAVE_PIN_IN_RESUME = True`) receives the sentinel as the literal
pin field value with store preference DONTSAVE. -/
def c6Loaded : WrapperPin :=
  wrapper_load_from_form
    { save_pin_in_resume := true, resume_id := "r1",
      pin_internal := none, pin_state := PinState.NONE }
    (some PIN_CACHED_SENTINEL) (some PinState.DONTSAVE)

/-- C6: in the enrollment wrapper a form submission whose PIN field holds
the cached-PIN sentinel is stored literally: `load_from_form` keeps the
sentinel string in `self._pin` (in-memory tier) and `save_in_session` then
writes the literal sentinel into the transient securebox tier, where a
read-back returns the sentinel, not a cached secret. -/
theorem sentinel_written_verbatim_to_pin_store :
    c6Loaded.pin_internal = some PIN_CACHED_SENTINEL ∧
    c6Loaded.pin_state = PinState.SAVE_ON_RESUME ∧
    (wrapper_save_pin_in_session c6Loaded []).fetch_value
        (resume_label "r1" ++ "/pin") = some PIN_CACHED_SENTINEL := by
  refine ⟨rfl, rfl, rfl⟩

/-! ## The enrollment workflow steps (`FinTSWrapperAddProcess`, views/login_add.py) -/

/-- Python truthiness of an optional string (`None` and `""` are falsy),
as used by `tan_mechanism or self.tan_mechanism` and
`not self.client.selected_tan_medium`. -/
def pyTruthy : Option String → Bool
  | none => false
  | some s => if s = "" then false else true

/-- The Python `a or b` idiom on optional strings. -/
def pyOr (a b : Option String) : Option String :=
  if pyTruthy a then a else b

/-- `get_tan_media` (views/login_add.py lines 263-269; same logic
fints_interface.py lines 408-414): fetch the medium names from the client,
store them, and auto-select the first one if none is selected yet. -/
def Helper.get_tan_media_h (h : Helper) (w : World) : Helper :=
  let h' := { h with tan_media := some w.bank.media }
  if h'.tan_medium = none ∧ 0 < w.bank.media.length then
    { h' with tan_medium := w.bank.media.head? }
  else h'

/-- `get_tan_mechanisms` (views/login_add.py lines 253-261; same logic
fints_interface.py lines 398-406): fetch the mechanism ids from the
client, store them, and auto-select the first one if none is selected. -/
def Helper.get_tan_mechanisms_h (h : Helper) (w : World) : Helper :=
  let h' := { h with tan_mechanisms := some w.bank.mechanisms }
  if h'.tan_mechanism = none ∧ 0 < w.bank.mechanisms.length then
    { h' with tan_mechanism := w.bank.mechanisms.head? }
  else h'

/-- `FinTSWrapperAddProcess.do_step2` (views/login_add.py lines 410-416):
suspend when more than one mechanism is offered and none was supplied;
otherwise fall back to the current mechanism and close/reopen the dialog
only when the effective mechanism differs from the current one. -/
def Helper.do_step2 (h : Helper) (w : World) (tan_mechanism : Option String) :
    Except FintsError (Bool × Helper × World) :=
  if 1 < (h.tan_mechanisms.getD []).length ∧ tan_mechanism = none then
    .ok (false, h, w)
  else
    let tm := pyOr tan_mechanism h.tan_mechanism
    if tm ≠ h.tan_mechanism then
      match h.reopen w (fun x => { x with tan_mechanism := tm }) with
      | .error e => .error e
      | .ok (h', w') => .ok (true, h', w')
    else
      .ok (true, h, w)

/-- `FinTSWrapperAddProcess.do_step3` (views/login_add.py lines 418-426):
the whole medium-selection block is guarded by
`self.client.is_tan_media_required() and not self.client.selected_tan_medium`;
inside it, fetch/auto-select media, suspend when more than one is offered
and none supplied, and close/reopen when the effective medium differs from
the current wrapper field.  Reading `self.client` when it is `None` would
raise (`AttributeError`), modelled as `assertionError`. -/
def Helper.do_step3 (h : Helper) (w : World) (tan_medium : Option String) :
    Except FintsError (Bool × Helper × World) :=
  match h.client with
  | none => .error .assertionError
  | some c =>
      if w.bank.media_required = true ∧ pyTruthy c.tan_medium = false then
        let h := h.get_tan_media_h w
        if 1 < (h.tan_media.getD []).length ∧ tan_medium = none then
          .ok (false, h, w)
        else
          let tmd := pyOr tan_medium h.tan_medium
          if tmd ≠ h.tan_medium then
            match h.reopen w (fun x => { x with tan_medium := tmd }) with
            | .error e => .error e
            | .ok (h', w') => .ok (true, h', w')
          else
            .ok (true, h, w)
      else
        .ok (true, h, w)

/-- A client whose dialog was opened with TAN mechanism `m1` and TAN medium
`md1` already selected. -/
def c7Client : Client :=
  { cid := 0, blz := "10010010", login_name := "user1", pin := "1234",
    fints_url := "https://bank.example/fints", tan_mechanism := some "m1",
    tan_medium := some "md1" }

/-- The wrapper holding `c7Client`. -/
def c7Helper : Helper :=
  { blz := "10010010", login_name := "user1",
    fints_url := "https://bank.example/fints", pin := "1234",
    dialog_data := none, tan_mechanism := some "m1", tan_medium := some "md1",
    tan_mechanisms := some ["m1"], tan_media := some ["md1", "md2"],
    tan_request_serialized := none, client := some c7Client, client_data := none }

/-- The world in which `c7Client` is live: the bank offers media
`md1`/`md2` and requires naming one. -/
def c7World : World :=
  { reg := { open_clients := [c7Client], resumed_dialogs := [], with_fints_active := 1 },
    bank := { mechanisms := ["m1"], media := ["md1", "md2"], media_required := true,
              init_tan := false },
    valid_blobs := [], next_blob := 0, next_cid := 1, trace := [] }

/-- C7 counterexample: the workflow is given TAN medium `md2`, different
from the `md1` the live dialog was opened with, yet `do_step3` performs no
close and no reopen at all — the supplied medium is silently ignored
(wrapper, world and trace unchanged), because the whole block is guarded by
`not self.client.selected_tan_medium`. -/
theorem differing_tan_medium_is_ignored_when_already_selected :
    c7Helper.do_step3 c7World (some "md2") = .ok (true, c7Helper, c7World) ∧
    some "md2" ≠ c7Client.tan_medium ∧
    (c7World.trace.length = 0) := by
  refine ⟨rfl, by decide, rfl⟩

/-- C7 as amended: for a live dialog inside a guarded scope,
(a) a supplied TAN mechanism different from the current one causes a full
close of the dialog followed by a fresh open carrying the new mechanism —
the close is observable in the trace before the new open, and the new
client is a different object (new id), never the old one mutated in place;
(b) a supplied mechanism equal to the current one causes no close/reopen;
(c) a supplied TAN medium different from the one the dialog was opened
with is silently ignored (no close/reopen) whenever the dialog already has
a selected medium;
(d) the medium close/reopen only happens when the dialog was opened
without a selected medium: then a supplied medium differing from the
auto-selected first one causes the close followed by a fresh open carrying
it. -/
theorem tan_option_change_closes_then_reopens
    (h : Helper) (w : World) (c : Client)
    (hc : h.client = some c)
    (hmem : c ∈ w.reg.open_clients)
    (hnodup : w.reg.open_clients.Nodup)
    (hact : w.reg.with_fints_active ≠ 0)
    (hdd : h.dialog_data = none)
    (hinit : w.bank.init_tan = false)
    (hcid : c.cid ≠ w.next_cid) :
    (∀ m : String, m ≠ "" → some m ≠ h.tan_mechanism →
      ∃ h' w' c',
        h.do_step2 w (some m) = .ok (true, h', w') ∧
        h'.client = some c' ∧ h'.tan_mechanism = some m ∧
        c'.tan_mechanism = some m ∧ c'.cid ≠ c.cid ∧
        c ∉ w'.reg.open_clients ∧ c' ∈ w'.reg.open_clients ∧
        w'.trace = w.trace ++ [.closedD c.cid, .openedD c'.cid (some m) h.tan_medium]) ∧
    (∀ cur : String, h.tan_mechanism = some cur → cur ≠ "" →
      h.do_step2 w (some cur) = .ok (true, h, w)) ∧
    (∀ md : String, pyTruthy c.tan_medium = true →
      h.do_step3 w (some md) = .ok (true, h, w)) ∧
    (∀ md first rest, w.bank.media = first :: rest → w.bank.media_required = true →
      c.tan_medium = none → h.tan_medium = none → md ≠ "" → md ≠ first →
      ∃ h' w' c',
        h.do_step3 w (some md) = .ok (true, h', w') ∧
        h'.client = some c' ∧ h'.tan_medium = some md ∧
        c'.tan_medium = some md ∧ c'.cid ≠ c.cid ∧
        c ∉ w'.reg.open_clients ∧ c' ∈ w'.reg.open_clients ∧
        w'.trace = w.trace ++ [.closedD c.cid, .openedD c'.cid h.tan_mechanism (some md)]) := by
  have hactw : ¬ w.reg.with_fints_active = 0 := hact
  have hcerase : c ∉ w.reg.open_clients.erase c := fun hmm =>
    (((List.Nodup.mem_erase_iff hnodup).mp hmm).1 rfl)
  refine ⟨?_, ?_, ?_, ?_⟩
  · intro m hm hne
    refine ⟨{ h with client := some ⟨w.next_cid, h.blz, h.login_name, h.pin, h.fints_url,
        some m, h.tan_medium⟩, tan_mechanism := some m, client_data := some c.cid },
      { w with
        reg := { w.reg with
          open_clients := w.reg.open_clients.erase c ++
            [⟨w.next_cid, h.blz, h.login_name, h.pin, h.fints_url, some m, h.tan_medium⟩],
          resumed_dialogs := w.reg.resumed_dialogs.erase c.cid },
        next_cid := w.next_cid + 1,
        trace := (w.trace ++ [.closedD c.cid]) ++
          [.openedD w.next_cid (some m) h.tan_medium] },
      ⟨w.next_cid, h.blz, h.login_name, h.pin, h.fints_url, some m, h.tan_medium⟩,
      ?_, rfl, rfl, rfl, ?_, ?_, ?_, ?_⟩
    · simp [Helper.do_step2, pyOr, pyTruthy, hm, hne, Helper.reopen, Helper.closeH, hc,
        close_client, hmem, Helper.openH, hdd, open_client, inner_open_client, hactw, hinit]
    · exact fun hq => hcid hq.symm
    · intro hmm
      rcases List.mem_append.mp hmm with hl | hr
      · exact hcerase hl
      · have : c.cid = w.next_cid := congrArg Client.cid (List.mem_singleton.mp hr)
        exact hcid this
    · simp
    · simp
  · intro cur hcur hne
    simp only [Helper.do_step2, pyOr, pyTruthy, hcur]
    simp [hne]
  · intro md htr
    simp only [Helper.do_step3, hc, htr]
    simp [htr]
  · intro md first rest hmedia hreq hcmed hhmed hmd hmdfirst
    have hfirst : w.bank.media.head? = some first := by rw [hmedia]; rfl
    refine ⟨{ h with
        client := some ⟨w.next_cid, h.blz, h.login_name, h.pin, h.fints_url,
          h.tan_mechanism, some md⟩,
        tan_medium := some md, tan_media := some w.bank.media,
        client_data := some c.cid },
      { w with
        reg := { w.reg with
          open_clients := w.reg.open_clients.erase c ++
            [⟨w.next_cid, h.blz, h.login_name, h.pin, h.fints_url, h.tan_mechanism, some md⟩],
          resumed_dialogs := w.reg.resumed_dialogs.erase c.cid },
        next_cid := w.next_cid + 1,
        trace := (w.trace ++ [.closedD c.cid]) ++
          [.openedD w.next_cid h.tan_mechanism (some md)] },
      ⟨w.next_cid, h.blz, h.login_name, h.pin, h.fints_url, h.tan_mechanism, some md⟩,
      ?_, rfl, rfl, rfl, ?_, ?_, ?_, ?_⟩
    · simp [Helper.do_step3, hc, hcmed, hreq, pyTruthy, Helper.get_tan_media_h, hhmed,
        hmedia, pyOr, hmd, hmdfirst, Helper.reopen, Helper.closeH, close_client, hmem,
        Helper.openH, hdd, open_client, inner_open_client, hactw, hinit]
    · exact fun hq => hcid hq.symm
    · intro hmm
      rcases List.mem_append.mp hmm with hl | hr
      · exact hcerase hl
      · have : c.cid = w.next_cid := congrArg Client.cid (List.mem_singleton.mp hr)
        exact hcid this
    · simp
    · simp

/-- Witness configuration for the C7 theorem: a live client opened with
mechanism `m1` and no TAN medium selected, at a bank offering mechanisms
`m1`/`m2` and the single required medium `md1`. -/
def c7wClient : Client :=
  { cid := 0, blz := "10010010", login_name := "user1", pin := "1234",
    fints_url := "https://bank.example/fints", tan_mechanism := some "m1",
    tan_medium := none }

/-- The wrapper holding `c7wClient`. -/
def c7wHelper : Helper :=
  { blz := "10010010", login_name := "user1",
    fints_url := "https://bank.example/fints", pin := "1234",
    dialog_data := none, tan_mechanism := some "m1", tan_medium := none,
    tan_mechanisms := some ["m1", "m2"], tan_media := none,
    tan_request_serialized := none, client := some c7wClient, client_data := none }

/-- The world in which `c7wClient` is live. -/
def c7wWorld : World :=
  { reg := { open_clients := [c7wClient], resumed_dialogs := [], with_fints_active := 1 },
    bank := { mechanisms := ["m1", "m2"], media := ["md1"], media_required := true,
              init_tan := false },
    valid_blobs := [], next_blob := 0, next_cid := 1, trace := [] }

/-- Witness for the C7 theorem: parts (a), (b) and (d) at the concrete
inputs above (part (c) is exercised concretely by the counterexample
theorem's configuration). -/
theorem tan_option_change_closes_then_reopens_witness :
    (∃ h' w' c',
      c7wHelper.do_step2 c7wWorld (some "m2") = .ok (true, h', w') ∧
      h'.client = some c' ∧ h'.tan_mechanism = some "m2" ∧
      c'.tan_mechanism = some "m2" ∧ c'.cid ≠ c7wClient.cid ∧
      c7wClient ∉ w'.reg.open_clients ∧ c' ∈ w'.reg.open_clients ∧
      w'.trace = c7wWorld.trace ++
        [.closedD c7wClient.cid, .openedD c'.cid (some "m2") c7wHelper.tan_medium]) ∧
    c7wHelper.do_step2 c7wWorld (some "m1") = .ok (true, c7wHelper, c7wWorld) ∧
    (∃ h' w' c',
      c7wHelper.do_step3 c7wWorld (some "md2") = .ok (true, h', w') ∧
      h'.client = some c' ∧ h'.tan_medium = some "md2" ∧
      c'.tan_medium = some "md2" ∧ c'.cid ≠ c7wClient.cid ∧
      c7wClient ∉ w'.reg.open_clients ∧ c' ∈ w'.reg.open_clients ∧
      w'.trace = c7wWorld.trace ++
        [.closedD c7wClient.cid, .openedD c'.cid c7wHelper.tan_mechanism (some "md2")]) := by
  have T := tan_option_change_closes_then_reopens c7wHelper c7wWorld c7wClient
    rfl (by simp [c7wWorld]) (by simp [c7wWorld]) (by decide) rfl rfl (by decide)
  exact ⟨T.1 "m2" (by decide) (by decide),
    T.2.1 "m1" rfl (by decide),
    T.2.2.2 "md2" "md1" [] rfl rfl rfl rfl (by decide) (by decide)⟩

/-! ## Step 1 of the enrollment workflow (`FinTSLoginCreateStep1View.form_valid`,
views/login_add.py lines 476-517) -/

/-- `FinTSWrapperAddProcess.do_step4` (views/login_add.py lines 428-437):
suspend when the dialog initialization demanded a TAN and none was
supplied; otherwise send the TAN if one is pending, then fetch the SEPA
accounts and bank information (the fetched data is not observed by any
claim and is not tracked here) and report completion. -/
def Helper.do_step4 (h : Helper) (w : World) (tan : Option String) :
    Except FintsError (Bool × Helper × World) :=
  if h.tan_request_serialized.isSome then
    match tan with
    | none => .ok (false, h, w)
    | some _ => .ok (true, h, w)
  else
    .ok (true, h, w)

/-- The session-write of `AbstractFinTSWrapper.save_in_session`
(views/login_add.py lines 139-157): pause a live client, then always write
the workflow state into `request.session[self.resume_label]`.  Only the
written labels are tracked here; the stored payload is the subject of the
session round-trip model below, and the SAVE_ON_RESUME pin write is
modelled by `wrapper_save_pin_in_session`. -/
def Helper.save_in_session_label (h : Helper) (w : World) (sess : List String)
    (resume_id : String) : Except FintsError (Helper × World × List String) :=
  match h.pauseH w with
  | .error e => .error e
  | .ok (h₁, w₁) => .ok (h₁, w₁, sess ++ [resume_label resume_id])

/-- `FinTSLoginCreateStep1View.form_valid` (views/login_add.py lines
476-517), after `load_from_form`: open the dialog, fetch the TAN
mechanisms (error out of the chain when there are none, result stage `0`
standing for `form_invalid`), run `do_step2`/`do_step3`/`do_step4` with no
supplied choices to compute the next stage, then *always*
`save_in_session()` and redirect to that stage; the `finally:` close runs
at the end (a no-op after the pause).  Result: (next stage, wrapper,
world, session labels). -/
def step1_form_valid (h₀ : Helper) (w₀ : World) (sess : List String)
    (resume_id : String) : Except FintsError (Nat × Helper × World × List String) := do
  let (h, w) ← h₀.openH w₀
  let h := h.get_tan_mechanisms_h w
  if (h.tan_mechanisms.getD []).length = 0 then
    let (h, w) ← h.closeH w
    pure (0, h, w, sess)
  else
    let (ok2, h, w) ← h.do_step2 w none
    let (next_step, h, w) ←
      if ok2 then do
        let (ok3, h, w) ← h.do_step3 w none
        if ok3 then do
          let (ok4, h, w) ← h.do_step4 w none
          if ok4 then pure ((5 : Nat), h, w) else pure ((4 : Nat), h, w)
        else pure ((3 : Nat), h, w)
      else pure ((2 : Nat), h, w)
    let (h, w, sess) ← h.save_in_session_label w sess resume_id
    let (h, w) ← h.closeH w
    pure (next_step, h, w, sess)

/-- A freshly constructed enrollment wrapper, as built by
`SessionBasedFinTSWrapperMixin.setup` for a first request (no resume id):
no client, no dialog data, no TAN selections. -/
def c8Helper : Helper :=
  { blz := "10010010", login_name := "user1",
    fints_url := "https://bank.example/fints", pin := "1234",
    dialog_data := none, tan_mechanism := none, tan_medium := none,
    tan_mechanisms := none, tan_media := none, tan_request_serialized := none,
    client := none, client_data := none }

/-- A guarded-scope world for a bank offering exactly one TAN mechanism
`m` and exactly one required TAN medium `md`, with no initialization TAN
challenge. -/
def c8World (m md : String) : World :=
  { reg := { open_clients := [], resumed_dialogs := [], with_fints_active := 1 },
    bank := { mechanisms := [m], media := [md], media_required := true, init_tan := false },
    valid_blobs := [], next_blob := 0, next_cid := 0, trace := [] }

/-- C8 counterexample: against a bank with exactly one TAN mechanism and
one TAN medium and no initialization TAN, the step-1 submission does reach
stage 5 in one chain, but it still creates a SessionToken: the session
store, empty beforehand, holds the resume entry afterwards — contradicting
"without ever creating a SessionToken". -/
theorem enrollment_always_creates_session_token :
    (step1_form_valid c8Helper (c8World "m1" "md1") [] "R1").map (fun r => r.1) = .ok 5 ∧
    (step1_form_valid c8Helper (c8World "m1" "md1") [] "R1").map (fun r => r.2.2.2)
      = .ok [resume_label "R1"] ∧
    [resume_label "R1"] ≠ ([] : List String) := by
  refine ⟨rfl, rfl, by simp⟩

/-- C8 as amended: for every bank offering exactly one TAN mechanism and
one TAN medium and no initialization TAN challenge, the step-1 submission
computes stage 5 within the single open call chain — the dialog is opened
exactly once, never closed/reopened, and no intermediate selection stage
is entered — but the workflow still saves its state under the resume id
(pausing the dialog) before redirecting to stage 5; the SessionToken is
only deleted when stage 5 completes. -/
theorem single_option_bank_reaches_step5_in_one_chain :
    ∀ (m md : String) (sess : List String) (rid : String),
      (step1_form_valid c8Helper (c8World m md) sess rid).map (fun r => r.1) = .ok 5 ∧
      (step1_form_valid c8Helper (c8World m md) sess rid).map (fun r => r.2.2.2)
        = .ok (sess ++ [resume_label rid]) ∧
      (step1_form_valid c8Helper (c8World m md) sess rid).map (fun r => r.2.2.1.trace)
        = .ok [.openedD 0 none none, .pausedD 0, .closedD 0] := by
  intro m md sess rid
  refine ⟨?_, ?_, ?_⟩ <;>
    simp [step1_form_valid, c8Helper, c8World, Helper.openH, open_client,
      inner_open_client, Helper.get_tan_mechanisms_h, Helper.do_step2, Helper.do_step3,
      Helper.do_step4, Helper.get_tan_media_h, pyOr, pyTruthy,
      Helper.save_in_session_label, Helper.pauseH, pause_client, close_client,
      Helper.closeH, resume_label, Except.map, Except.bind, Except.pure,
      bind, pure, Functor.map, Seq.seq]

/-! ## Flicker rendering (`get_flicker_css`, views/common.py lines 73-122)

The claims concern the frame stream built in lines 74-78:

    stream = [1, 0, 31, 30, 31, 30]
    for i in range(len(data)):
        d = int(data[i ^ 1], 16)
        stream.append(1 | (d << 1))
        stream.append(0 | (d << 1))

The loop is embedded as a recursion on the number of loop iterations done;
`data[i ^ 1]` raising `IndexError` and `int(_, 16)` raising `ValueError`
are modelled as `none`.  The rest of `get_flicker_css` deterministically
formats this stream into CSS keyframes and is not observed by the claim. -/

/-- `int(ch, 16)` on a single character: its hexadecimal digit value. -/
def hexVal? (ch : Char) : Option Nat :=
  if 48 ≤ ch.toNat ∧ ch.toNat ≤ 57 then some (ch.toNat - 48)
  else if 97 ≤ ch.toNat ∧ ch.toNat ≤ 102 then some (ch.toNat - 87)
  else if 65 ≤ ch.toNat ∧ ch.toNat ≤ 70 then some (ch.toNat - 55)
  else none

/-- The first `n` iterations of the `for i in range(len(data))` loop: the
frames appended so far, `none` if an iteration raised. -/
def flicker_loop (data : List Char) : Nat → Option (List Nat)
  | 0 => some []
  | n + 1 =>
      match flicker_loop data n, (data.get? (n ^^^ 1)).bind hexVal? with
      | some acc, some d => some (acc ++ [1 ||| (d <<< 1), 0 ||| (d <<< 1)])
      | _, _ => none

/-- The full frame stream of `get_flicker_css`: the fixed six-element
start sequence followed by the two frames per payload position. -/
def get_flicker_stream (data : List Char) : Option (List Nat) :=
  (flicker_loop data data.length).map (fun l => [1, 0, 31, 30, 31, 30] ++ l)

/-- XOR with 1 on an even number sets its lowest bit. -/
theorem two_mul_xor_one (k : Nat) : 2 * k ^^^ 1 = 2 * k + 1 := by
  have h := Nat.xor_bit false k true 0
  simpa [Nat.bit_val] using h

/-- XOR with 1 on an odd number clears its lowest bit. -/
theorem two_mul_add_one_xor_one (k : Nat) : (2 * k + 1) ^^^ 1 = 2 * k := by
  have h := Nat.xor_bit true k true 0
  simpa [Nat.bit_val] using h

/-- `i ^^^ 1` swaps each even index with its odd successor. -/
theorem xor_one_eq (i : Nat) : i ^^^ 1 = if i % 2 = 0 then i + 1 else i - 1 := by
  rcases Nat.even_or_odd i with he | ho
  · obtain ⟨k, hk⟩ := he
    subst hk
    have h1 := two_mul_xor_one k
    have h2 : k + k = 2 * k := by omega
    rw [h2, h1]
    simp [Nat.mul_mod_right]
  · obtain ⟨k, hk⟩ := ho
    subst hk
    have h1 := two_mul_add_one_xor_one k
    rw [h1]
    have : (2 * k + 1) % 2 = 1 := by omega
    simp [this]

/-- In an even-length list, the pair-swapped index stays in range. -/
theorem xor_one_lt {n i : Nat} (hn : n % 2 = 0) (hi : i < n) : i ^^^ 1 < n := by
  rw [xor_one_eq]
  rcases Nat.eq_zero_or_pos (i % 2) with h | h
  · rw [if_pos h]
    omega
  · have h1 : ¬ i % 2 = 0 := by omega
    rw [if_neg h1]
    omega

/-- Correctness of the embedded loop: when every needed digit parses, the
loop succeeds and position `i` contributed the frames
`1 | (d << 1)` and `0 | (d << 1)` for the digit `d` at index `i ^^^ 1`. -/
theorem flicker_loop_spec (data : List Char) :
    ∀ n, (∀ i, i < n → ∃ d, (data.get? (i ^^^ 1)).bind hexVal? = some d) →
      ∃ l, flicker_loop data n = some l ∧ l.length = 2 * n ∧
        ∀ i, i < n → ∀ d, (data.get? (i ^^^ 1)).bind hexVal? = some d →
          l.get? (2 * i) = some (1 ||| (d <<< 1)) ∧
          l.get? (2 * i + 1) = some (0 ||| (d <<< 1)) := by
  intro n
  induction n with
  | zero => intro _; exact ⟨[], rfl, rfl, fun i hi => absurd hi (Nat.not_lt_zero i)⟩
  | succ n ih =>
      intro hdig
      obtain ⟨l, hl, hlen, hidx⟩ := ih (fun i hi => hdig i (Nat.lt_succ_of_lt hi))
      obtain ⟨d, hd⟩ := hdig n (Nat.lt_succ_self n)
      refine ⟨l ++ [1 ||| (d <<< 1), 0 ||| (d <<< 1)], ?_, ?_, ?_⟩
      · simp only [flicker_loop, hl, hd]
      · simp only [List.length_append, hlen, List.length_cons, List.length_nil]
        omega
      · intro i hi d' hd'
        rcases Nat.lt_succ_iff_lt_or_eq.mp hi with hlt | heq
        · have h1 : 2 * i < l.length := by omega
          have h2 : 2 * i + 1 < l.length := by omega
          have := hidx i hlt d' hd'
          rw [List.get?_append h1, List.get?_append h2]
          exact this
        · subst heq
          have hdd : d' = d := by
            rw [hd] at hd'
            exact (Option.some_inj.mp hd').symm
          subst hdd
          have h1 : l.length ≤ 2 * i := by omega
          have h2 : l.length ≤ 2 * i + 1 := by omega
          rw [List.get?_append_right h1, List.get?_append_right h2, hlen]
          have e1 : 2 * i - 2 * i = 0 := by omega
          have e2 : 2 * i + 1 - 2 * i = 1 := by omega
          rw [e1, e2]
          exact ⟨rfl, rfl⟩

/-- C9: for every payload of hexadecimal digits taken pairwise (even
length, all digits hex — exactly what the loop's `data[i ^ 1]` indexing
and `int(_, 16)` presuppose), the rendered frame stream exists, starts
with the fixed six-element prefix `[1, 0, 31, 30, 31, 30]`, has two frames
per payload digit, and position `i` contributes `1 | (d << 1)` followed by
`0 | (d << 1)` where `d` is the value of the hex digit at the pair-swapped
index `i ^^^ 1`.  Determinism is by construction: the embedding is a pure
function of the payload, so equal payloads give identical streams. -/
theorem flicker_stream_prefix_and_pairs (data : List Char)
    (heven : data.length % 2 = 0)
    (hhex : ∀ c ∈ data, (hexVal? c).isSome) :
    ∃ s, get_flicker_stream data = some s ∧
      s.take 6 = [1, 0, 31, 30, 31, 30] ∧
      s.length = 6 + 2 * data.length ∧
      ∀ i, i < data.length → ∃ ch d,
        data.get? (i ^^^ 1) = some ch ∧ hexVal? ch = some d ∧
        s.get? (6 + 2 * i) = some (1 ||| (d <<< 1)) ∧
        s.get? (6 + 2 * i + 1) = some (0 ||| (d <<< 1)) := by
  have hdig : ∀ i, i < data.length → ∃ d, (data.get? (i ^^^ 1)).bind hexVal? = some d := by
    intro i hi
    have hlt := xor_one_lt heven hi
    have hch := List.get?_eq_get hlt
    have hmem : data.get ⟨i ^^^ 1, hlt⟩ ∈ data := List.get_mem data (i ^^^ 1) hlt
    obtain ⟨d, hd⟩ := Option.isSome_iff_exists.mp (hhex _ hmem)
    exact ⟨d, by rw [hch]; simpa using hd⟩
  obtain ⟨l, hl, hlen, hidx⟩ := flicker_loop_spec data data.length hdig
  refine ⟨[1, 0, 31, 30, 31, 30] ++ l, ?_, ?_, ?_, ?_⟩
  · simp [get_flicker_stream, hl]
  · rfl
  · simp only [List.length_append, hlen, List.length_cons, List.length_nil]
  · intro i hi
    obtain ⟨d, hd⟩ := hdig i hi
    obtain ⟨ch, hch⟩ := Option.bind_eq_some.mp hd
    refine ⟨ch, d, hch.1, hch.2, ?_, ?_⟩
    · have h6 : (6 : Nat) ≤ 6 + 2 * i := by omega
      rw [List.get?_append_right (by simpa using h6)]
      have e : 6 + 2 * i - 6 = 2 * i := by omega
      rw [show ([1, 0, 31, 30, 31, 30] : List Nat).length = 6 from rfl, e]
      exact (hidx i hi d hd).1
    · have h6 : (6 : Nat) ≤ 6 + 2 * i + 1 := by omega
      rw [List.get?_append_right (by simpa using h6)]
      have e : 6 + 2 * i + 1 - 6 = 2 * i + 1 := by omega
      rw [show ([1, 0, 31, 30, 31, 30] : List Nat).length = 6 from rfl, e]
      exact (hidx i hi d hd).2

/-- Witness for the C9 theorem at the payload `02` (the first hex digit
pair of the spec example payload): the stream is the fixed prefix followed
by `5, 4` (digit `2` at swapped index 1) and `1, 0` (digit `0`). -/
theorem flicker_stream_prefix_and_pairs_witness :
    (['0', '2'].length % 2 = 0) ∧
    (∀ c ∈ ['0', '2'], (hexVal? c).isSome) ∧
    (∃ s, get_flicker_stream ['0', '2'] = some s ∧
      s.take 6 = [1, 0, 31, 30, 31, 30] ∧
      s.length = 6 + 2 * (['0', '2'] : List Char).length ∧
      ∀ i, i < (['0', '2'] : List Char).length → ∃ ch d,
        (['0', '2'] : List Char).get? (i ^^^ 1) = some ch ∧ hexVal? ch = some d ∧
        s.get? (6 + 2 * i) = some (1 ||| (d <<< 1)) ∧
        s.get? (6 + 2 * i + 1) = some (0 ||| (d <<< 1))) :=
  ⟨by decide, by decide,
    flicker_stream_prefix_and_pairs ['0', '2'] (by decide) (by decide)⟩

/-! ## Session persistence of helper state
(`AbstractFinTSHelper`, fints_interface.py lines 239-300)

`_get_data_for_session` returns the 8-tuple of saved fields; subclasses
append extra fields (`FinTSHelper` appends `user_login_pk`, lines 461-468,
`FinTSWrapperAddProcess` appends nine more, views/login_add.py lines
357-382), and `_set_data_from_session` splits the tuple back in the same
order.  `save_in_session` pickles `(class name,) + tuple` into
`request.session[resume_label]` (base64/pickle round-trip is the identity
on this model of the payload); `restore_from_session` unpickles, asserts
the class-name tag, and reloads the fields.  A SAVE_ON_RESUME pin is
stored under `resume_label + "/pin"` in the transient securebox tier and
read back on restore. -/

/-- The saved helper state: the 8 base fields of `_get_data_for_session`
plus the extra tuple components appended by subclass overrides. -/
structure SavedData where
  pin_state : PinState
  dialog_data : Option Nat
  init_tan_request_serialized : Option Nat
  tan_request_serialized : Option Nat
  tan_mechanism : Option String
  tan_medium : Option String
  tan_mechanisms : Option (List (String × String))
  tan_media : Option (List String)
  extras : List (Option Nat)
  deriving DecidableEq, Repr

/-- A helper as seen by the session-persistence methods: its class-name
tag, resume id, saved state, and the volatile fields (`self._pin`, the
client handle and the last saved snapshot). -/
structure SessionHelper where
  className : String
  resume_id : String
  data : SavedData
  pin_internal : Option String
  client : Option Client
  client_data : Option Nat
  deriving DecidableEq, Repr

/-- The `request.session` entries written by `save_in_session`:
(resume label, class-name tag, saved tuple). -/
abbrev SessStore := List (String × String × SavedData)

/-- `AbstractFinTSHelper.save_in_session` (fints_interface.py lines
251-269): pause a held client (keeping its `dialog_data` and snapshot),
write `(class name,) + _get_data_for_session()` under the resume label,
store a SAVE_ON_RESUME pin in the transient securebox tier, and return
`resume_id`. -/
def SessionHelper.save_in_session (sh : SessionHelper) (w : World)
    (sess : SessStore) (box : SecureBox) :
    Except FintsError (String × SessionHelper × World × SessStore × SecureBox) :=
  let step : Except FintsError (SessionHelper × World) :=
    match sh.client with
    | none => .ok (sh, w)
    | some c =>
        match pause_client w c with
        | .error e => .error e
        | .ok ((cd, dd), w') =>
            .ok ({ sh with
                client := none, client_data := some cd,
                data := { sh.data with dialog_data := some dd } }, w')
  match step with
  | .error e => .error e
  | .ok (sh, w) =>
      let sess := (resume_label sh.resume_id, sh.className, sh.data) :: sess
      let box :=
        if sh.data.pin_state = PinState.SAVE_ON_RESUME then
          box.store_value (resume_label sh.resume_id ++ "/pin")
            (sh.pin_internal.getD "") Tier.TRANSIENT_ONLY
        else box
      .ok (sh.resume_id, sh, w, sess, box)

/-- `AbstractFinTSHelper.restore_from_session` (fints_interface.py lines
283-296): construct a fresh helper for `resume_id`, unpickle the session
entry (`KeyError` if absent), assert the class-name tag matches the
restoring class, reload the saved fields, and read back a SAVE_ON_RESUME
pin from the securebox (`KeyError` if absent). -/
def restore_from_session (className : String) (sess : SessStore) (box : SecureBox)
    (resume_id : String) : Except FintsError SessionHelper :=
  match sess.find? (fun e => e.1 = resume_label resume_id) with
  | none => .error .keyError
  | some (_, tag, data) =>
      if tag = className then
        let sh : SessionHelper :=
          { className := className, resume_id := resume_id, data := data,
            pin_internal := none, client := none, client_data := none }
        if data.pin_state = PinState.SAVE_ON_RESUME then
          match box.find? (fun e => e.1 = resume_label resume_id ++ "/pin") with
          | some e => .ok { sh with pin_internal := some e.2.1 }
          | none => .error .keyError
        else .ok sh
      else .error .assertionError

/-- Restoring reads back exactly the entry `save_in_session` wrote, and a
wrong class tag fails the assert before any state is loaded. -/
theorem restore_reads_back (cls rid : String) (data : SavedData) (sess : SessStore)
    (box : SecureBox) (pin : String) :
    (data.pin_state ≠ PinState.SAVE_ON_RESUME →
      restore_from_session cls ((resume_label rid, cls, data) :: sess) box rid =
        .ok ⟨cls, rid, data, none, none, none⟩) ∧
    (data.pin_state = PinState.SAVE_ON_RESUME →
      restore_from_session cls ((resume_label rid, cls, data) :: sess)
        ((resume_label rid ++ "/pin", pin, Tier.TRANSIENT_ONLY) :: box) rid =
        .ok ⟨cls, rid, data, some pin, none, none⟩) ∧
    (∀ other, other ≠ cls →
      restore_from_session other ((resume_label rid, cls, data) :: sess) box rid =
        .error .assertionError) := by
  refine ⟨?_, ?_, ?_⟩
  · intro hps
    simp only [restore_from_session, List.find?]
    simp [hps]
  · intro hps
    simp only [restore_from_session, List.find?]
    simp [hps]
  · intro other hne
    simp only [restore_from_session, List.find?]
    simp [Ne.symm hne]

/-- C10: saving a helper's workflow state and restoring it under the same
resume id is a round trip — the restored helper carries exactly the saved
fields (the 8 base fields and the subclass extras, i.e. the whole
`SavedData`), under the same class tag and resume id — and restoring the
same blob under a different helper class fails the class-name tag check
with an assertion error instead of loading mismatched state. -/
theorem save_restore_round_trip (sh : SessionHelper) (w : World)
    (sess : SessStore) (box : SecureBox)
    (hclient : sh.client = none ∨ ∃ c, sh.client = some c ∧ c ∈ w.reg.open_clients) :
    ∃ sh₁ w₁ sess₁ box₁,
      sh.save_in_session w sess box = .ok (sh.resume_id, sh₁, w₁, sess₁, box₁) ∧
      sh₁.className = sh.className ∧ sh₁.resume_id = sh.resume_id ∧
      (∃ sh₂, restore_from_session sh.className sess₁ box₁ sh.resume_id = .ok sh₂ ∧
        sh₂.data = sh₁.data ∧ sh₂.className = sh.className ∧
        sh₂.resume_id = sh.resume_id) ∧
      (∀ other : String, other ≠ sh.className →
        restore_from_session other sess₁ box₁ sh.resume_id = .error .assertionError) := by
  rcases hclient with hnone | ⟨c, hc, hmem⟩
  · by_cases hps : sh.data.pin_state = PinState.SAVE_ON_RESUME
    · refine ⟨sh, w, (resume_label sh.resume_id, sh.className, sh.data) :: sess,
        (resume_label sh.resume_id ++ "/pin", sh.pin_internal.getD "",
          Tier.TRANSIENT_ONLY) :: box,
        ?_, rfl, rfl,
        ⟨⟨sh.className, sh.resume_id, sh.data, some (sh.pin_internal.getD ""),
          none, none⟩,
          (restore_reads_back sh.className sh.resume_id sh.data sess box
            (sh.pin_internal.getD "")).2.1 hps, rfl, rfl, rfl⟩,
        fun other hne =>
          (restore_reads_back sh.className sh.resume_id sh.data sess _
            (sh.pin_internal.getD "")).2.2 other hne⟩
      simp only [SessionHelper.save_in_session, hnone, hps, if_pos, SecureBox.store_value]
    · refine ⟨sh, w, (resume_label sh.resume_id, sh.className, sh.data) :: sess, box,
        ?_, rfl, rfl,
        ⟨⟨sh.className, sh.resume_id, sh.data, none, none, none⟩,
          (restore_reads_back sh.className sh.resume_id sh.data sess box
            "").1 hps, rfl, rfl, rfl⟩,
        fun other hne =>
          (restore_reads_back sh.className sh.resume_id sh.data sess _ "").2.2 other hne⟩
      simp only [SessionHelper.save_in_session, hnone]
      rw [if_neg hps]
  · by_cases hps : sh.data.pin_state = PinState.SAVE_ON_RESUME
    · refine ⟨{ sh with
          client := none, client_data := some c.cid,
          data := { sh.data with dialog_data := some w.next_blob } },
        { w with
          valid_blobs := w.valid_blobs ++ [w.next_blob],
          next_blob := w.next_blob + 1,
          reg := { w.reg with
            open_clients := w.reg.open_clients.erase c,
            resumed_dialogs := w.reg.resumed_dialogs.erase c.cid },
          trace := w.trace ++ [.pausedD c.cid] ++ [.closedD c.cid] },
        (resume_label sh.resume_id, sh.className,
          { sh.data with dialog_data := some w.next_blob }) :: sess,
        (resume_label sh.resume_id ++ "/pin", sh.pin_internal.getD "",
          Tier.TRANSIENT_ONLY) :: box,
        ?_, rfl, rfl,
        ⟨⟨sh.className, sh.resume_id, { sh.data with dialog_data := some w.next_blob },
          some (sh.pin_internal.getD ""), none, none⟩,
          (restore_reads_back sh.className sh.resume_id
            { sh.data with dialog_data := some w.next_blob } sess box
            (sh.pin_internal.getD "")).2.1 hps, rfl, rfl, rfl⟩,
        fun other hne =>
          (restore_reads_back sh.className sh.resume_id
            { sh.data with dialog_data := some w.next_blob } sess _
            (sh.pin_internal.getD "")).2.2 other hne⟩
      simp only [SessionHelper.save_in_session, hc, pause_client, close_client, hmem,
        if_pos, hps, SecureBox.store_value]
    · refine ⟨{ sh with
          client := none, client_data := some c.cid,
          data := { sh.data with dialog_data := some w.next_blob } },
        { w with
          valid_blobs := w.valid_blobs ++ [w.next_blob],
          next_blob := w.next_blob + 1,
          reg := { w.reg with
            open_clients := w.reg.open_clients.erase c,
            resumed_dialogs := w.reg.resumed_dialogs.erase c.cid },
          trace := w.trace ++ [.pausedD c.cid] ++ [.closedD c.cid] },
        (resume_label sh.resume_id, sh.className,
          { sh.data with dialog_data := some w.next_blob }) :: sess, box,
        ?_, rfl, rfl,
        ⟨⟨sh.className, sh.resume_id, { sh.data with dialog_data := some w.next_blob },
          none, none, none⟩,
          (restore_reads_back sh.className sh.resume_id
            { sh.data with dialog_data := some w.next_blob } sess box "").1 hps,
          rfl, rfl, rfl⟩,
        fun other hne =>
          (restore_reads_back sh.className sh.resume_id
            { sh.data with dialog_data := some w.next_blob } sess _ "").2.2 other hne⟩
      simp only [SessionHelper.save_in_session, hc, pause_client, close_client, hmem,
        if_pos]
      rw [if_neg hps]

/-- Concrete helper for the C10 witness: a `FinTSHelper`-tagged helper
with no live client and a DONTSAVE pin state. -/
def c10Helper : SessionHelper :=
  { className := "FinTSHelper", resume_id := "RID-1",
    data := { pin_state := PinState.DONTSAVE, dialog_data := some 7,
              init_tan_request_serialized := none, tan_request_serialized := some 3,
              tan_mechanism := some "942", tan_medium := some "TanApp",
              tan_mechanisms := some [("942", "942: photoTAN")],
              tan_media := some ["TanApp"], extras := [some 5] },
    pin_internal := none, client := none, client_data := none }

/-- Witness for the C10 theorem at `c10Helper` in an empty session. -/
theorem save_restore_round_trip_witness :
    ∃ sh₁ w₁ sess₁ box₁,
      c10Helper.save_in_session w0 [] [] = .ok (c10Helper.resume_id, sh₁, w₁, sess₁, box₁) ∧
      sh₁.className = c10Helper.className ∧ sh₁.resume_id = c10Helper.resume_id ∧
      (∃ sh₂, restore_from_session c10Helper.className sess₁ box₁ c10Helper.resume_id
          = .ok sh₂ ∧
        sh₂.data = sh₁.data ∧ sh₂.className = c10Helper.className ∧
        sh₂.resume_id = c10Helper.resume_id) ∧
      (∀ other : String, other ≠ c10Helper.className →
        restore_from_session other sess₁ box₁ c10Helper.resume_id
          = .error .assertionError) :=
  save_restore_round_trip c10Helper w0 [] [] (Or.inl rfl)

end ByroFints
